import Mathlib

/-!
Shallow embedding of the windo command-execution bridge (src/main.rs) and
verification of its behavioural properties.  Filesystem interaction is
parametrised: the search-path lookup becomes a function from candidate names
to optional paths, the working directory and read_link become explicit
arguments, and the collaborator processes (wslpath, the child) become
explicit results in an environment record.
-/

namespace Windo

/-- A single quote character, used in the diagnostic messages. -/
def squote : String := String.singleton (Char.ofNat 39)

/-- One entry of the ordered extension table inside find_configuration. -/
structure SupportedExecutable where
  suffix : String
  needs_cmd_wrapper : Bool
  pipe : Bool
deriving Repr, DecidableEq

/-- Result of a successful resolution, as in src/main.rs. -/
structure Configuration where
  path : String
  pipe : Bool
  needs_cmd_wrapper : Bool
deriving Repr, DecidableEq

/-- The two distinguishable error shapes produced by find_configuration:
the generic not-found message and the found-but-on-UNC-path message. -/
inductive FindError where
  | notFound (command : String)
  | foundButRestricted (path : String)
deriving Repr, DecidableEq

/-- Kernel-evaluable reimplementation of str::starts_with on the character
list of a string. -/
def str_starts_with (s pat : String) : Bool :=
  pat.toList.isPrefixOf s.toList

/-- Kernel-evaluable reimplementation of str::ends_with on the character
list of a string. -/
def str_ends_with (s pat : String) : Bool :=
  pat.toList.reverse.isPrefixOf s.toList.reverse

/-- Kernel-evaluable reimplementation of str::trim: strip leading and
trailing whitespace characters. -/
def str_trim (s : String) : String :=
  ⟨((s.toList.dropWhile Char.isWhitespace).reverse.dropWhile
      Char.isWhitespace).reverse⟩

/-- Splitting a character list at a separator character, every separator
occurrence producing a boundary (as str::split and String.splitOn do). -/
def splitChar (sep : Char) : List Char → List Char → List (List Char)
  | [], acc => [acc.reverse]
  | c :: rest, acc =>
    if c == sep then acc.reverse :: splitChar sep rest []
    else splitChar sep rest (c :: acc)

/-- Components of a path string, as Rust Path::components behaves on the
Unix-style strings relevant here: empty components and the current-directory
component are dropped. -/
def pathComponents (s : String) : List (List Char) :=
  (splitChar '/' s.toList []).filter (fun c => !(c == []) && !(c == ['.']))

/-- Rust Path::file_name on a Unix-style path string: the final component,
unless it is a parent-directory component or there is none. -/
def file_name (s : String) : Option (List Char) :=
  match (pathComponents s).getLast? with
  | some n => if n == ['.', '.'] then none else some n
  | none => none

/-- Rust Path::new(command).extension().is_some(): the file name carries a
dot at some position after its first character. -/
def extension_is_some (command : String) : Bool :=
  match file_name command with
  | some n => (n.drop 1).contains '.'
  | none => false

/-- The static extension table of find_configuration, in source order. -/
def supported : List SupportedExecutable :=
  [⟨".exe", false, false⟩, ⟨".bat", true, true⟩, ⟨".cmd", true, true⟩]

/-- The search loop of find_configuration: walk the extension table in order,
returning at the first hit that is compatible with the context, remembering
(and overwriting) an incompatible hit in found_unsupported, and falling
through to the two error shapes at the end of the table. -/
def searchLoop (which : String → Option String) (is_unc : Bool) (command : String) :
    List SupportedExecutable → Option Configuration → Except FindError Configuration
  | [], none => .error (.notFound command)
  | [], some exe => .error (.foundButRestricted exe.path)
  | ext :: rest, found_unsupported =>
    match which (command ++ ext.suffix) with
    | some path =>
      if ext.needs_cmd_wrapper && is_unc then
        searchLoop which is_unc command rest
          (some ⟨path, ext.pipe, ext.needs_cmd_wrapper⟩)
      else
        .ok ⟨path, ext.pipe, ext.needs_cmd_wrapper⟩
    | none => searchLoop which is_unc command rest found_unsupported

/-- find_configuration from src/main.rs, with the which-crate lookup and the
context probe result passed in explicitly. -/
def find_configuration (which : String → Option String) (is_unc : Bool)
    (command : String) : Except FindError Configuration :=
  if extension_is_some command then
    match which command with
    | some path =>
      let needs_cmd_wrapper := str_ends_with command ".bat" || str_ends_with command ".cmd"
      .ok ⟨path, needs_cmd_wrapper, needs_cmd_wrapper⟩
    | none => .error (.notFound command)
  else
    searchLoop which is_unc command supported none

/-- is_on_unc_path from src/main.rs: current_dir is none when the working
directory cannot be determined; read_link models fs::read_link (none on a
non-symlink).  The result is the negation of the /mnt/ drive pattern check. -/
def is_on_unc_path (current_dir : Option String)
    (read_link : String → Option String) : Bool :=
  match current_dir with
  | none => true
  | some cd =>
    let canonical_dir : String :=
      match read_link cd with
      | some link_target => link_target
      | none => cd
    !str_starts_with canonical_dir "/mnt/" ||
      !(((canonical_dir.toList.get? 5).map (fun c => c.isAlpha)).getD false) ||
      !(((canonical_dir.toList.get? 6).map (fun c => c == '/')).getD false)

/-- Result of running the wslpath collaborator with .output(): none models
an io::Error from spawning it (hard failure); some carries the captured
stdout text together with the exit-status flag the source never inspects. -/
structure ProcessOutput where
  status_success : Bool
  stdout : String
deriving Repr, DecidableEq

/-- The windows_path computation in main: on a captured output, the trimmed
stdout; on hard failure of wslpath, the display form of the original path. -/
def windows_path (wslpath_output : Option ProcessOutput) (path : String) :
    String :=
  match wslpath_output with
  | some output => str_trim output.stdout
  | none => path

/-- A command line about to be spawned: program plus argument list. -/
structure SpawnedCommand where
  program : String
  args : List String
deriving Repr, DecidableEq

/-- Command construction in main, identical in the pipe and the non-pipe
branch: through cmd.exe with the translated path when the configuration
needs the cmd wrapper, directly otherwise. -/
def build_command (needs_cmd_wrapper : Bool)
    (wslpath_output : Option ProcessOutput) (path : String)
    (extra : List String) : SpawnedCommand :=
  if needs_cmd_wrapper then
    ⟨"cmd.exe", "/c" :: windows_path wslpath_output path :: extra⟩
  else
    ⟨path, extra⟩

/-- ExitCode::from(status.code().unwrap_or(1) as u8) at the end of main:
the child status code is an Int when the platform reports one, and the cast
to u8 truncates modulo 256. -/
def exit_code_of (code : Option Int) : Nat :=
  ((code.getD 1) % 256).toNat

/-- Rendering of the two FindError shapes into the messages of
find_configuration. -/
def renderFindError : FindError → String
  | .notFound command =>
    "Command " ++ squote ++ command ++ squote ++ " not found"
  | .foundButRestricted path =>
    "Command " ++ squote ++ path ++ squote ++
      " found but cannot be executed from UNC path (network drive). Use .exe files or run from a local drive."

/-- The usage diagnostic of main. -/
def usageLine (prog : String) : String :=
  "Usage: " ++ prog ++ " <command> [args...]"

/-- Environment of one invocation of main: the search-path lookup, the
probed context, the wslpath collaborator outcome, the OS spawn outcome per
command line, and the wait outcome for the child. -/
structure MainEnv where
  which : String → Option String
  is_unc : Bool
  wslpath_output : Option ProcessOutput
  spawn_res : SpawnedCommand → Except String Unit
  wait_res : Except String (Option Int)

/-- main from src/main.rs, producing the list of its own diagnostic lines on
the error stream (relayed child output is the child's, not a diagnostic) and
the process exit code. -/
def run_main (args : List String) (env : MainEnv) : List String × Nat :=
  if args.length < 2 then
    ([usageLine (args.headD "")], 1)
  else
    let command := args.getD 1 ""
    match find_configuration env.which env.is_unc command with
    | .error e => (["Error: " ++ renderFindError e], 1)
    | .ok exe =>
      let cmd := build_command exe.needs_cmd_wrapper env.wslpath_output
        exe.path (args.drop 2)
      match env.spawn_res cmd with
      | .error e =>
        (["Error starting " ++ squote ++ exe.path ++ squote ++ ": " ++ e], 1)
      | .ok _ =>
        match env.wait_res with
        | .error e =>
          (["Error waiting for " ++ squote ++ exe.path ++ squote ++ ": " ++ e], 1)
        | .ok code => ([], exit_code_of code)

/-! Concrete search-path contents and environments used to instantiate the
general results on explicit inputs. -/

/-- A search path containing exactly /w/foo.bat. -/
def whichFooBat : String → Option String :=
  fun s => if s == "foo.bat" then some "/w/foo.bat" else none

/-- A search path containing exactly /w/foo.exe. -/
def whichFooExe : String → Option String :=
  fun s => if s == "foo.exe" then some "/w/foo.exe" else none

/-- A search path containing /w/foo.bat and /w/foo.exe. -/
def whichFooBatExe : String → Option String :=
  fun s =>
    if s == "foo.bat" then some "/w/foo.bat"
    else if s == "foo.exe" then some "/w/foo.exe"
    else none

/-- A search path containing /w/foo.bat and /w/foo.cmd but no native binary. -/
def whichFooBatCmd : String → Option String :=
  fun s =>
    if s == "foo.bat" then some "/w/foo.bat"
    else if s == "foo.cmd" then some "/w/foo.cmd"
    else none

/-- Environment: only foo.bat on the search path, local context, wslpath
hard-fails, the OS spawn succeeds, the child exits with code 0. -/
def envBatLocal : MainEnv :=
  ⟨whichFooBat, false, none, fun _ => Except.ok (), Except.ok (some 0)⟩

/-- Environment: only foo.exe on the search path, restricted context, spawn
succeeds, the child exits with code 42. -/
def envExeUnc : MainEnv :=
  ⟨whichFooExe, true, none, fun _ => Except.ok (), Except.ok (some 42)⟩

/-- Environment: empty search path, everything else benign. -/
def envEmpty : MainEnv :=
  ⟨fun _ => none, true, none, fun _ => Except.ok (), Except.ok (some 0)⟩

/-- Environment: foo.exe resolvable but the OS refuses to spawn. -/
def envSpawnFail : MainEnv :=
  ⟨whichFooExe, true, none, fun _ => Except.error "boom", Except.ok (some 0)⟩

/-- Environment: foo.exe resolvable, spawn succeeds, the wait fails. -/
def envWaitFail : MainEnv :=
  ⟨whichFooExe, true, none, fun _ => Except.ok (), Except.error "boom"⟩

/-! Helper lemmas about string prefixes, shared by several results below. -/

/-- Appending strings appends their character lists. -/
theorem string_toList_append (a b : String) :
    (a ++ b).toList = a.toList ++ b.toList := by
  cases a; cases b; rfl

/-- A character list is a prefix of itself followed by anything. -/
theorem isPrefixOf_self_append (l m : List Char) :
    l.isPrefixOf (l ++ m) = true := by
  induction l with
  | nil => simp
  | cons c cs ih => simp [List.isPrefixOf, ih]

/-- A string extending a given literal starts with that literal. -/
theorem str_starts_with_append (a b : String) :
    str_starts_with (a ++ b) a = true := by
  rw [str_starts_with, string_toList_append]
  exact isPrefixOf_self_append a.toList b.toList

/-- The usage diagnostic does not carry the spawn-error prefix. -/
theorem usage_not_error_starting (l : List Char) :
    List.isPrefixOf "Error starting ".toList ("Usage: ".toList ++ l) = false :=
  rfl

/-- A resolution diagnostic does not carry the spawn-error prefix. -/
theorem error_colon_not_error_starting (l : List Char) :
    List.isPrefixOf "Error starting ".toList ("Error: ".toList ++ l) = false :=
  rfl

/-- A wait diagnostic does not carry the spawn-error prefix. -/
theorem waiting_not_error_starting (l : List Char) :
    List.isPrefixOf "Error starting ".toList
      ("Error waiting for ".toList ++ l) = false :=
  rfl

/-- A character-list prefix stays a prefix after extending on the right. -/
theorem isPrefixOf_append_left (l m n : List Char)
    (h : l.isPrefixOf m = true) : l.isPrefixOf (m ++ n) = true := by
  induction l generalizing m with
  | nil => simp
  | cons c cs ih =>
    cases m with
    | nil => simp [List.isPrefixOf] at h
    | cons d ds =>
      rw [List.isPrefixOf, Bool.and_eq_true] at h
      rw [List.cons_append, List.isPrefixOf, Bool.and_eq_true]
      exact ⟨h.1, ih ds h.2⟩

/-- A string prefix stays a prefix after appending on the right. -/
theorem str_starts_with_append_left (a b pat : String)
    (h : str_starts_with a pat = true) :
    str_starts_with (a ++ b) pat = true := by
  rw [str_starts_with] at h
  rw [str_starts_with, string_toList_append]
  exact isPrefixOf_append_left _ _ _ h

/-! Equational description of run_main on each of its paths. -/

/-- With fewer than two arguments, main prints the usage line and fails. -/
theorem run_main_usage (args : List String) (env : MainEnv)
    (h : args.length < 2) :
    run_main args env = ([usageLine (args.headD "")], 1) := by
  simp only [run_main]
  rw [if_pos h]

/-- When resolution fails, main prints one prefixed diagnostic and fails. -/
theorem run_main_find_error (args : List String) (env : MainEnv)
    (e : FindError) (h : ¬ args.length < 2)
    (hfc : find_configuration env.which env.is_unc (args.getD 1 "") =
      Except.error e) :
    run_main args env = (["Error: " ++ renderFindError e], 1) := by
  simp only [run_main, hfc]
  rw [if_neg h]

/-- When the OS spawn fails, main prints one starting diagnostic and fails. -/
theorem run_main_spawn_error (args : List String) (env : MainEnv)
    (exe : Configuration) (msg : String) (h : ¬ args.length < 2)
    (hfc : find_configuration env.which env.is_unc (args.getD 1 "") =
      Except.ok exe)
    (hsp : env.spawn_res (build_command exe.needs_cmd_wrapper
      env.wslpath_output exe.path (args.drop 2)) = Except.error msg) :
    run_main args env =
      (["Error starting " ++ squote ++ exe.path ++ squote ++ ": " ++ msg],
        1) := by
  simp only [run_main, hfc, hsp]
  rw [if_neg h]

/-- When the wait fails, main prints one waiting diagnostic and fails. -/
theorem run_main_wait_error (args : List String) (env : MainEnv)
    (exe : Configuration) (msg : String) (h : ¬ args.length < 2)
    (hfc : find_configuration env.which env.is_unc (args.getD 1 "") =
      Except.ok exe)
    (hsp : env.spawn_res (build_command exe.needs_cmd_wrapper
      env.wslpath_output exe.path (args.drop 2)) = Except.ok ())
    (hw : env.wait_res = Except.error msg) :
    run_main args env =
      (["Error waiting for " ++ squote ++ exe.path ++ squote ++ ": " ++ msg],
        1) := by
  simp only [run_main, hfc, hsp, hw]
  rw [if_neg h]

/-- When everything succeeds, main prints nothing of its own and maps the
child status through exit_code_of. -/
theorem run_main_ok (args : List String) (env : MainEnv)
    (exe : Configuration) (c : Option Int) (h : ¬ args.length < 2)
    (hfc : find_configuration env.which env.is_unc (args.getD 1 "") =
      Except.ok exe)
    (hsp : env.spawn_res (build_command exe.needs_cmd_wrapper
      env.wslpath_output exe.path (args.drop 2)) = Except.ok ())
    (hw : env.wait_res = Except.ok c) :
    run_main args env = ([], exit_code_of c) := by
  simp only [run_main, hfc, hsp, hw]
  rw [if_neg h]

/-- C1 (counterexample): the name foo.bat carries an explicit extension, and
its literal lookup succeeds, yet find_configuration returns a configuration
with needs_cmd_wrapper = true and pipe = true, not the false/false the claim
asserts for every explicit-extension name. -/
theorem c1_counterexample :
    extension_is_some "foo.bat" = true ∧
    find_configuration whichFooBat true "foo.bat" =
      Except.ok ⟨"/w/foo.bat", true, true⟩ ∧
    (find_configuration whichFooBat true "foo.bat").toOption.map
      Configuration.needs_cmd_wrapper ≠ some false ∧
    (find_configuration whichFooBat true "foo.bat").toOption.map
      Configuration.pipe ≠ some false := by
  refine ⟨rfl, rfl, ?_, ?_⟩ <;> decide

/-- C1 (amended): a command name with an explicit extension bypasses the
extension search and is resolved by a literal lookup, independently of the
context; success yields a configuration whose needs_cmd_wrapper and pipe
flags both equal (name ends with .bat or .cmd) — false for .exe-style names
— and lookup failure yields the not-found error. -/
theorem c1_explicit_extension :
    ∀ (which : String → Option String) (is_unc : Bool) (command p : String),
    extension_is_some command = true →
    ((which command = some p →
        find_configuration which is_unc command =
          Except.ok ⟨p,
            str_ends_with command ".bat" || str_ends_with command ".cmd",
            str_ends_with command ".bat" || str_ends_with command ".cmd"⟩) ∧
     (which command = none →
        find_configuration which is_unc command =
          Except.error (.notFound command))) := by
  intro which is_unc command p hext
  constructor
  · intro h
    simp [find_configuration, hext, h]
  · intro h
    simp [find_configuration, hext, h]

/-- C1 (witness): instantiating the amended statement on foo.bat over a
search path holding /w/foo.bat, in a restricted context. -/
theorem c1_witness :
    find_configuration whichFooBat true "foo.bat" =
      Except.ok ⟨"/w/foo.bat",
        str_ends_with "foo.bat" ".bat" || str_ends_with "foo.bat" ".cmd",
        str_ends_with "foo.bat" ".bat" || str_ends_with "foo.bat" ".cmd"⟩ :=
  (c1_explicit_extension whichFooBat true "foo.bat" "/w/foo.bat" rfl).1 rfl

/-- C2: in a restricted context, a rule whose lookup hits but whose kind
needs the cmd wrapper never short-circuits the search loop: whenever every
rule before some compatible rule either misses or is wrapper-kind, the first
compatible hit is the configuration returned, whatever was remembered so
far; and for extensionless names find_configuration in a restricted context
is exactly this loop over the supported table. -/
theorem c2_compatibility_dominates_priority :
    (∀ (which : String → Option String) (command : String)
      (pre : List SupportedExecutable) (post : List SupportedExecutable)
      (ext : SupportedExecutable) (p : String) (acc : Option Configuration),
      (∀ e ∈ pre, which (command ++ e.suffix) = none ∨
        e.needs_cmd_wrapper = true) →
      which (command ++ ext.suffix) = some p →
      ext.needs_cmd_wrapper = false →
      searchLoop which true command (pre ++ ext :: post) acc =
        Except.ok ⟨p, ext.pipe, false⟩) ∧
    (∀ (which : String → Option String) (command : String),
      extension_is_some command = false →
      find_configuration which true command =
        searchLoop which true command supported none) := by
  constructor
  · intro which command pre
    induction pre with
    | nil =>
      intro post ext p acc hpre hhit hcompat
      simp [searchLoop, hhit, hcompat]
    | cons e rest ih =>
      intro post ext p acc hpre hhit hcompat
      have hrest : ∀ x ∈ rest, which (command ++ x.suffix) = none ∨
          x.needs_cmd_wrapper = true :=
        fun x hx => hpre x (List.mem_cons_of_mem e hx)
      rcases hpre e (List.mem_cons_self e rest) with hnone | hncw
      · simpa [searchLoop, hnone] using ih post ext p acc hrest hhit hcompat
      · cases hq : which (command ++ e.suffix) with
        | none =>
          simpa [searchLoop, hq] using ih post ext p acc hrest hhit hcompat
        | some q =>
          simpa [searchLoop, hq, hncw] using
            ih post ext p (some ⟨q, e.pipe, e.needs_cmd_wrapper⟩)
              hrest hhit hcompat
  · intro which command hext
    simp [find_configuration, hext]

/-- C2 (witness): with a wrapper-kind rule placed before the native rule and
both candidates present, the restricted-context loop still returns the
compatible native candidate; and find_configuration on foo agrees with the
loop over the supported table. -/
theorem c2_witness :
    searchLoop whichFooBatExe true "foo"
      [⟨".bat", true, true⟩, ⟨".exe", false, false⟩] none =
      Except.ok ⟨"/w/foo.exe", false, false⟩ ∧
    find_configuration whichFooBatExe true "foo" =
      searchLoop whichFooBatExe true "foo" supported none := by
  constructor
  · exact c2_compatibility_dominates_priority.1 whichFooBatExe "foo"
      [⟨".bat", true, true⟩] [] ⟨".exe", false, false⟩ "/w/foo.exe" none
      (by intro e he; rw [List.mem_singleton] at he; subst he; exact Or.inr rfl)
      rfl rfl
  · exact c2_compatibility_dominates_priority.2 whichFooBatExe "foo" rfl

/-- C3: for an extensionless name in a restricted context, whenever the
native .exe lookup misses but a wrapper candidate is found, the result is
the found-but-restricted error carrying a found path (the .cmd hit when
present, else the .bat hit); and the not-found error occurs exactly when
all three lookups miss. -/
theorem c3_restricted_vs_not_found :
    ∀ (which : String → Option String) (command p : String),
    extension_is_some command = false →
    ((which (command ++ ".exe") = none →
        which (command ++ ".bat") = some p →
        find_configuration which true command =
          Except.error (.foundButRestricted
            ((which (command ++ ".cmd")).getD p))) ∧
     (which (command ++ ".exe") = none →
        which (command ++ ".bat") = none →
        which (command ++ ".cmd") = some p →
        find_configuration which true command =
          Except.error (.foundButRestricted p)) ∧
     (find_configuration which true command =
          Except.error (.notFound command) ↔
        which (command ++ ".exe") = none ∧
        which (command ++ ".bat") = none ∧
        which (command ++ ".cmd") = none)) := by
  intro which command p hext
  refine ⟨?_, ?_, ?_⟩
  · intro h1 h2
    cases h3 : which (command ++ ".cmd") with
    | none => simp [find_configuration, hext, searchLoop, supported, h1, h2, h3]
    | some q => simp [find_configuration, hext, searchLoop, supported, h1, h2, h3]
  · intro h1 h2 h3
    simp [find_configuration, hext, searchLoop, supported, h1, h2, h3]
  · cases h1 : which (command ++ ".exe") with
    | some q => simp [find_configuration, hext, searchLoop, supported, h1]
    | none =>
      cases h2 : which (command ++ ".bat") with
      | some q =>
        cases h3 : which (command ++ ".cmd") with
        | some r =>
          simp [find_configuration, hext, searchLoop, supported, h1, h2, h3]
        | none =>
          simp [find_configuration, hext, searchLoop, supported, h1, h2, h3]
      | none =>
        cases h3 : which (command ++ ".cmd") with
        | some r =>
          simp [find_configuration, hext, searchLoop, supported, h1, h2, h3]
        | none =>
          simp [find_configuration, hext, searchLoop, supported, h1, h2, h3]

/-- C3 (witness): with only foo.bat present in a restricted context, the
result is the found-but-restricted error carrying the found path. -/
theorem c3_witness :
    find_configuration whichFooBat true "foo" =
      Except.error (.foundButRestricted
        ((whichFooBat ("foo" ++ ".cmd")).getD "/w/foo.bat")) :=
  (c3_restricted_vs_not_found whichFooBat "foo" "/w/foo.bat" rfl).1 rfl rfl

/-- C4: for extensionless names the rules are tried in the order .exe, .bat,
.cmd; the first rule whose lookup hits and is compatible with the context is
returned immediately, with needs_cmd_wrapper and pipe false for the native
.exe rule (in any context) and true for the wrapper rules (in an
unrestricted context).  In particular a native candidate beats a coexisting
wrapper candidate. -/
theorem c4_priority_order :
    ∀ (which : String → Option String) (is_unc : Bool) (command p : String),
    extension_is_some command = false →
    ((which (command ++ ".exe") = some p →
        find_configuration which is_unc command =
          Except.ok ⟨p, false, false⟩) ∧
     (which (command ++ ".exe") = none →
        which (command ++ ".bat") = some p →
        find_configuration which false command =
          Except.ok ⟨p, true, true⟩) ∧
     (which (command ++ ".exe") = none →
        which (command ++ ".bat") = none →
        which (command ++ ".cmd") = some p →
        find_configuration which false command =
          Except.ok ⟨p, true, true⟩)) := by
  intro which is_unc command p hext
  refine ⟨?_, ?_, ?_⟩
  · intro h1
    simp [find_configuration, hext, searchLoop, supported, h1]
  · intro h1 h2
    simp [find_configuration, hext, searchLoop, supported, h1, h2]
  · intro h1 h2 h3
    simp [find_configuration, hext, searchLoop, supported, h1, h2, h3]

/-- C4 (witness): with both foo.exe and foo.bat present in an unrestricted
context, the native binary wins with a direct, uncaptured launch. -/
theorem c4_witness :
    find_configuration whichFooBatExe false "foo" =
      Except.ok ⟨"/w/foo.exe", false, false⟩ :=
  (c4_priority_order whichFooBatExe false "foo" "/w/foo.exe" rfl).1 rfl

/-- C5: in a restricted context with no native candidate and both wrapper
candidates found, the remembered incompatible candidate is the later .cmd
hit, whose path is the one reported by the found-but-restricted error. -/
theorem c5_last_incompatible_wins :
    ∀ (which : String → Option String) (command p q : String),
    extension_is_some command = false →
    which (command ++ ".exe") = none →
    which (command ++ ".bat") = some p →
    which (command ++ ".cmd") = some q →
    find_configuration which true command =
      Except.error (.foundButRestricted q) := by
  intro which command p q hext h1 h2 h3
  simp [find_configuration, hext, searchLoop, supported, h1, h2, h3]

/-- C5 (witness): with /w/foo.bat and /w/foo.cmd both found, the reported
path is the .cmd one. -/
theorem c5_witness :
    find_configuration whichFooBatCmd true "foo" =
      Except.error (.foundButRestricted "/w/foo.cmd") :=
  c5_last_incompatible_wins whichFooBatCmd "foo" "/w/foo.bat" "/w/foo.cmd"
    rfl rfl rfl rfl

/-- C9: every configuration returned successfully by find_configuration has
pipe equal to needs_cmd_wrapper: stream capture is requested exactly when
the cmd.exe wrapper is used.  Loop part, with the hypothesis that every
table entry satisfies the invariant. -/
theorem searchLoop_ok_pipe :
    ∀ (which : String → Option String) (is_unc : Bool) (command : String)
      (l : List SupportedExecutable) (acc : Option Configuration)
      (conf : Configuration),
    (∀ e ∈ l, e.pipe = e.needs_cmd_wrapper) →
    searchLoop which is_unc command l acc = Except.ok conf →
    conf.pipe = conf.needs_cmd_wrapper := by
  intro which is_unc command l
  induction l with
  | nil =>
    intro acc conf _ h
    cases acc <;> simp [searchLoop] at h
  | cons e rest ih =>
    intro acc conf hl h
    have he : e.pipe = e.needs_cmd_wrapper := hl e (List.mem_cons_self e rest)
    have hrest : ∀ x ∈ rest, x.pipe = x.needs_cmd_wrapper :=
      fun x hx => hl x (List.mem_cons_of_mem e hx)
    cases hq : which (command ++ e.suffix) with
    | none =>
      rw [searchLoop, hq] at h
      exact ih acc conf hrest h
    | some q =>
      simp only [searchLoop, hq] at h
      by_cases hc : (e.needs_cmd_wrapper && is_unc) = true
      · rw [if_pos hc] at h
        exact ih (some ⟨q, e.pipe, e.needs_cmd_wrapper⟩) conf hrest h
      · rw [if_neg hc] at h
        cases h
        exact he

/-- C9: the invariant pipe = needs_cmd_wrapper on every successful result of
find_configuration, for explicit-extension and searched names alike. -/
theorem c9_pipe_iff_wrapper :
    ∀ (which : String → Option String) (is_unc : Bool) (command : String)
      (conf : Configuration),
    find_configuration which is_unc command = Except.ok conf →
    conf.pipe = conf.needs_cmd_wrapper := by
  intro which is_unc command conf h
  unfold find_configuration at h
  by_cases hext : extension_is_some command = true
  · rw [if_pos hext] at h
    cases hq : which command with
    | none => rw [hq] at h; cases h
    | some q => rw [hq] at h; cases h; rfl
  · rw [if_neg hext] at h
    exact searchLoop_ok_pipe which is_unc command supported none conf
      (by decide) h

/-- C9 (witness): the invariant instantiated on the configuration produced
for foo.exe over a restricted context. -/
theorem c9_witness :
    Configuration.pipe ⟨"/w/foo.exe", false, false⟩ =
      Configuration.needs_cmd_wrapper ⟨"/w/foo.exe", false, false⟩ :=
  c9_pipe_iff_wrapper whichFooExe true "foo" ⟨"/w/foo.exe", false, false⟩ rfl

/-- C6 (counterexample): with only foo.bat on the search path, a local
context and a wslpath collaborator that hard-fails, the run completes
without any diagnostic and with exit code 0 — no SpawnError is surfaced —
and the wrapper command silently falls back to the original path. -/
theorem c6_counterexample :
    envBatLocal.wslpath_output = none ∧
    run_main ["windo", "foo"] envBatLocal = ([], 0) ∧
    build_command true none "/w/foo.bat" [] =
      ⟨"cmd.exe", ["/c", "/w/foo.bat"]⟩ :=
  ⟨rfl, rfl, rfl⟩

/-- C6 (amended): a hard failure of the wslpath collaborator degrades to
using the original path verbatim; when wslpath produces output its trimmed
stdout is used whatever its exit status; and no translation failure is ever
surfaced as a spawn error — whenever the OS spawn itself succeeds, no run
emits a spawn-error diagnostic, whatever the wslpath outcome. -/
theorem c6_translation_fallback :
    (∀ path, windows_path none path = path) ∧
    (∀ (output : ProcessOutput) (path : String),
      windows_path (some output) path = str_trim output.stdout) ∧
    (∀ (env : MainEnv) (args : List String),
      (∀ c, env.spawn_res c = Except.ok ()) →
      ((run_main args env).1.all
        (fun line => !(str_starts_with line "Error starting "))) = true) := by
  refine ⟨fun path => rfl, fun output path => rfl, ?_⟩
  intro env args hspawn
  by_cases hlen : args.length < 2
  · rw [run_main_usage args env hlen]
    simp only [List.all_cons, List.all_nil, Bool.and_true, Bool.not_eq_true']
    rw [usageLine, str_starts_with, string_toList_append,
      string_toList_append, List.append_assoc]
    exact usage_not_error_starting _
  · cases hfc : find_configuration env.which env.is_unc (args.getD 1 "") with
    | error e =>
      rw [run_main_find_error args env e hlen hfc]
      simp only [List.all_cons, List.all_nil, Bool.and_true, Bool.not_eq_true']
      rw [str_starts_with, string_toList_append]
      exact error_colon_not_error_starting _
    | ok exe =>
      cases hw : env.wait_res with
      | error msg =>
        rw [run_main_wait_error args env exe msg hlen hfc (hspawn _) hw]
        simp only [List.all_cons, List.all_nil, Bool.and_true,
          Bool.not_eq_true']
        rw [str_starts_with, string_toList_append, string_toList_append,
          string_toList_append, string_toList_append, List.append_assoc,
          List.append_assoc, List.append_assoc]
        exact waiting_not_error_starting _
      | ok c =>
        rw [run_main_ok args env exe c hlen hfc (hspawn _) hw]
        rfl

/-- C6 (witness): the no-spawn-error conclusion instantiated on the
hard-failing-wslpath environment. -/
theorem c6_witness :
    ((run_main ["windo", "foo"] envBatLocal).1.all
      (fun line => !(str_starts_with line "Error starting "))) = true :=
  c6_translation_fallback.2.2 envBatLocal ["windo", "foo"] (fun _ => rfl)

/-- C7: on a run whose resolution and spawn succeed, a child status code K
with 0 ≤ K ≤ 255 becomes exactly the program exit code K, and a missing
status code becomes the fixed default 1. -/
theorem c7_exit_code_fidelity :
    ∀ (args : List String) (env : MainEnv) (K : Int),
    2 ≤ args.length →
    (∃ conf, find_configuration env.which env.is_unc (args.getD 1 "") =
        Except.ok conf) →
    (∀ c, env.spawn_res c = Except.ok ()) →
    ((env.wait_res = Except.ok (some K) → 0 ≤ K → K ≤ 255 →
        (run_main args env).2 = K.toNat) ∧
     (env.wait_res = Except.ok none → (run_main args env).2 = 1)) := by
  intro args env K hlen hex hspawn
  obtain ⟨conf, hconf⟩ := hex
  have hnotlt : ¬ args.length < 2 := by omega
  constructor
  · intro hwait h0 h255
    rw [run_main_ok args env conf (some K) hnotlt hconf (hspawn _) hwait]
    show exit_code_of (some K) = K.toNat
    rw [exit_code_of]
    show (K % 256).toNat = K.toNat
    rw [Int.emod_eq_of_lt h0 (by omega)]
  · intro hwait
    rw [run_main_ok args env conf none hnotlt hconf (hspawn _) hwait]
    rfl

/-- C7 (witness): with foo.exe resolved from a restricted context and the
child exiting with status 42, the program exit code is 42. -/
theorem c7_witness :
    (run_main ["windo", "foo"] envExeUnc).2 = (42 : Int).toNat :=
  (c7_exit_code_fidelity ["windo", "foo"] envExeUnc 42 (by decide)
    ⟨⟨"/w/foo.exe", false, false⟩, rfl⟩ (fun _ => rfl)).1 rfl
    (by decide) (by decide)

/-- C8 (counterexample): the usage failure is a failed run whose single
diagnostic line is not prefixed with the Error-colon marker the claim
requires of every failed run. -/
theorem c8_counterexample :
    run_main ["windo"] envEmpty = (["Usage: windo <command> [args...]"], 1) ∧
    str_starts_with "Usage: windo <command> [args...]" "Error: " = false :=
  ⟨rfl, rfl⟩

/-- C8 (amended): every run either succeeds silently — no diagnostic line,
exit code mapped from the child status — or fails with exactly one
diagnostic line and exit code 1; and each failure kind produces its own
marker: the usage error a Usage-prefixed line, a resolution failure an
Error-colon-prefixed line, a spawn failure an Error-starting-prefixed line
and a wait failure an Error-waiting-for-prefixed line. -/
theorem c8_single_diagnostic :
    ∀ (args : List String) (env : MainEnv),
    (((run_main args env).1 = [] ∧
        ∃ c, env.wait_res = Except.ok c ∧
          (run_main args env).2 = exit_code_of c) ∨
      ((run_main args env).1.length = 1 ∧ (run_main args env).2 = 1 ∧
        (str_starts_with ((run_main args env).1.headD "") "Error: " = true ∨
         str_starts_with ((run_main args env).1.headD "") "Usage: " = true ∨
         str_starts_with ((run_main args env).1.headD "")
           "Error starting " = true ∨
         str_starts_with ((run_main args env).1.headD "")
           "Error waiting for " = true))) ∧
    (args.length < 2 →
       (run_main args env).1.length = 1 ∧ (run_main args env).2 = 1 ∧
       str_starts_with ((run_main args env).1.headD "") "Usage: " = true) ∧
    (∀ e, ¬ args.length < 2 →
       find_configuration env.which env.is_unc (args.getD 1 "") =
         Except.error e →
       (run_main args env).1.length = 1 ∧ (run_main args env).2 = 1 ∧
       str_starts_with ((run_main args env).1.headD "") "Error: " = true) ∧
    (∀ exe msg, ¬ args.length < 2 →
       find_configuration env.which env.is_unc (args.getD 1 "") =
         Except.ok exe →
       env.spawn_res (build_command exe.needs_cmd_wrapper env.wslpath_output
         exe.path (args.drop 2)) = Except.error msg →
       (run_main args env).1.length = 1 ∧ (run_main args env).2 = 1 ∧
       str_starts_with ((run_main args env).1.headD "")
         "Error starting " = true) ∧
    (∀ exe msg, ¬ args.length < 2 →
       find_configuration env.which env.is_unc (args.getD 1 "") =
         Except.ok exe →
       env.spawn_res (build_command exe.needs_cmd_wrapper env.wslpath_output
         exe.path (args.drop 2)) = Except.ok () →
       env.wait_res = Except.error msg →
       (run_main args env).1.length = 1 ∧ (run_main args env).2 = 1 ∧
       str_starts_with ((run_main args env).1.headD "")
         "Error waiting for " = true) := by
  intro args env
  refine ⟨?_, ?_, ?_, ?_, ?_⟩
  · by_cases hlen : args.length < 2
    · right
      rw [run_main_usage args env hlen]
      refine ⟨rfl, rfl, Or.inr (Or.inl ?_)⟩
      show str_starts_with (usageLine (args.headD "")) "Usage: " = true
      rw [usageLine]
      exact str_starts_with_append_left _ _ _ (str_starts_with_append _ _)
    · cases hfc : find_configuration env.which env.is_unc (args.getD 1 "") with
      | error e =>
        right
        rw [run_main_find_error args env e hlen hfc]
        exact ⟨rfl, rfl, Or.inl (str_starts_with_append _ _)⟩
      | ok exe =>
        cases hsp : env.spawn_res (build_command exe.needs_cmd_wrapper
            env.wslpath_output exe.path (args.drop 2)) with
        | error msg =>
          right
          rw [run_main_spawn_error args env exe msg hlen hfc hsp]
          refine ⟨rfl, rfl, Or.inr (Or.inr (Or.inl ?_))⟩
          exact str_starts_with_append_left _ _ _
            (str_starts_with_append_left _ _ _
              (str_starts_with_append_left _ _ _
                (str_starts_with_append_left _ _ _
                  (str_starts_with_append _ _))))
        | ok u =>
          cases u
          cases hw : env.wait_res with
          | error msg =>
            right
            rw [run_main_wait_error args env exe msg hlen hfc hsp hw]
            refine ⟨rfl, rfl, Or.inr (Or.inr (Or.inr ?_))⟩
            exact str_starts_with_append_left _ _ _
              (str_starts_with_append_left _ _ _
                (str_starts_with_append_left _ _ _
                  (str_starts_with_append_left _ _ _
                    (str_starts_with_append _ _))))
          | ok c =>
            left
            rw [run_main_ok args env exe c hlen hfc hsp hw]
            exact ⟨rfl, c, rfl, rfl⟩
  · intro hlen
    rw [run_main_usage args env hlen]
    refine ⟨rfl, rfl, ?_⟩
    show str_starts_with (usageLine (args.headD "")) "Usage: " = true
    rw [usageLine]
    exact str_starts_with_append_left _ _ _ (str_starts_with_append _ _)
  · intro e hlen hfc
    rw [run_main_find_error args env e hlen hfc]
    exact ⟨rfl, rfl, str_starts_with_append _ _⟩
  · intro exe msg hlen hfc hsp
    rw [run_main_spawn_error args env exe msg hlen hfc hsp]
    refine ⟨rfl, rfl, ?_⟩
    exact str_starts_with_append_left _ _ _
      (str_starts_with_append_left _ _ _
        (str_starts_with_append_left _ _ _
          (str_starts_with_append_left _ _ _
            (str_starts_with_append _ _))))
  · intro exe msg hlen hfc hsp hw
    rw [run_main_wait_error args env exe msg hlen hfc hsp hw]
    refine ⟨rfl, rfl, ?_⟩
    exact str_starts_with_append_left _ _ _
      (str_starts_with_append_left _ _ _
        (str_starts_with_append_left _ _ _
          (str_starts_with_append_left _ _ _
            (str_starts_with_append _ _))))

/-- C8 (witness): the four failure kinds instantiated concretely — a
missing command argument, an empty search path, an OS spawn refusal and a
failing wait — each produce one diagnostic with their own prefix and exit
code 1. -/
theorem c8_witness :
    ((run_main ["windo"] envEmpty).1.length = 1 ∧
      (run_main ["windo"] envEmpty).2 = 1 ∧
      str_starts_with ((run_main ["windo"] envEmpty).1.headD "")
        "Usage: " = true) ∧
    ((run_main ["windo", "foo"] envEmpty).1.length = 1 ∧
      (run_main ["windo", "foo"] envEmpty).2 = 1 ∧
      str_starts_with ((run_main ["windo", "foo"] envEmpty).1.headD "")
        "Error: " = true) ∧
    ((run_main ["windo", "foo"] envSpawnFail).1.length = 1 ∧
      (run_main ["windo", "foo"] envSpawnFail).2 = 1 ∧
      str_starts_with ((run_main ["windo", "foo"] envSpawnFail).1.headD "")
        "Error starting " = true) ∧
    ((run_main ["windo", "foo"] envWaitFail).1.length = 1 ∧
      (run_main ["windo", "foo"] envWaitFail).2 = 1 ∧
      str_starts_with ((run_main ["windo", "foo"] envWaitFail).1.headD "")
        "Error waiting for " = true) :=
  ⟨(c8_single_diagnostic ["windo"] envEmpty).2.1 (by decide),
   (c8_single_diagnostic ["windo", "foo"] envEmpty).2.2.1
     (.notFound "foo") (by decide) rfl,
   (c8_single_diagnostic ["windo", "foo"] envSpawnFail).2.2.2.1
     ⟨"/w/foo.exe", false, false⟩ "boom" (by decide) rfl rfl,
   (c8_single_diagnostic ["windo", "foo"] envWaitFail).2.2.2.2
     ⟨"/w/foo.exe", false, false⟩ "boom" (by decide) rfl rfl rfl⟩

/-- Auxiliary for C10: unfolding the probe on a determined working
directory. -/
theorem is_on_unc_path_some (cd : String) (rl : String → Option String) :
    is_on_unc_path (some cd) rl =
      (!str_starts_with ((rl cd).getD cd) "/mnt/" ||
       !((((rl cd).getD cd).toList.get? 5).map (fun c => c.isAlpha)).getD
          false ||
       !((((rl cd).getD cd).toList.get? 6).map (fun c => c == '/')).getD
          false) := by
  cases hr : rl cd <;> simp [is_on_unc_path, hr]

/-- Auxiliary for C10: a triple negated disjunction is false exactly when
all three components hold. -/
theorem three_not_or_false (a b c : Bool) :
    (!a || !b || !c) = false ↔ (a = true ∧ b = true ∧ c = true) := by
  cases a <;> cases b <;> cases c <;> simp

/-- Auxiliary for C10: the drive-letter slot test in positive form. -/
theorem map_getD_isAlpha (o : Option Char) :
    ((o.map (fun c => c.isAlpha)).getD false = true) ↔
      ∃ c, o = some c ∧ c.isAlpha = true := by
  cases o <;> simp

/-- Auxiliary for C10: the trailing-slash slot test in positive form. -/
theorem map_getD_slash (o : Option Char) :
    ((o.map (fun c => c == '/')).getD false = true) ↔ o = some '/' := by
  cases o <;> simp

/-- C10: the probe classifies the context as local (unrestricted) exactly
when the working directory, after at most one read_link resolution, starts
with the /mnt/ prefix followed by an ASCII letter and then a slash; a bare
drive root such as /mnt/c is therefore classified as restricted. -/
theorem c10_unc_probe :
    (∀ (cd : String) (read_link : String → Option String),
      is_on_unc_path (some cd) read_link = false ↔
        (str_starts_with ((read_link cd).getD cd) "/mnt/" = true ∧
         (∃ c, ((read_link cd).getD cd).toList.get? 5 = some c ∧
            c.isAlpha = true) ∧
         ((read_link cd).getD cd).toList.get? 6 = some '/')) ∧
    is_on_unc_path (some "/mnt/c") (fun _ => none) = true := by
  constructor
  · intro cd read_link
    rw [is_on_unc_path_some, three_not_or_false, map_getD_isAlpha,
      map_getD_slash]
  · rfl

end Windo
